import Mathlib

/-!
Verification development for the BradCAD 2D vector drawing editor.

The JavaScript sources are shallowly embedded over exact rational
arithmetic (`ℚ`): pure functions become Lean functions, store/component
state becomes explicit records, and event handlers become state
transitions.  JavaScript `null`/`undefined` results are modelled with
`Option`.  `Math.round` (round half toward positive infinity) is
modelled by `jround`.  The only systematic translation is for distance
comparisons: the source compares `Math.sqrt(d2) <= tolerance`, which for
every real tolerance is equivalent to `0 ≤ tolerance ∧ d2 ≤ tolerance²`;
the embedding uses the latter form so that everything stays inside `ℚ`.
-/

namespace BradCAD

/-- A point `{x, y}` as used throughout the sources. -/
structure Point where
  x : ℚ
  y : ℚ
deriving DecidableEq, Repr

/-- JavaScript `Math.round`: rounds to the nearest integer, half toward
positive infinity (`Math.round(0.5) = 1`, `Math.round(-0.5) = 0`). -/
def jround (q : ℚ) : ℤ := ⌊q + 1/2⌋

/-- Squared Euclidean distance.  The source's `calculateDistance`
computes `Math.sqrt` of this quantity (drawing-utils.js,
`calculateDistance`). -/
def distSq (p1 p2 : Point) : ℚ :=
  (p2.x - p1.x) ^ 2 + (p2.y - p1.y) ^ 2

/-- The comparison `calculateDistance(p, q) <= tolerance` of the source,
expressed without square roots: `sqrt d ≤ t ↔ 0 ≤ t ∧ d ≤ t²`. -/
def distLeTol (p q : Point) (tolerance : ℚ) : Bool :=
  decide (0 ≤ tolerance) && decide (distSq p q ≤ tolerance ^ 2)

/-- `snapToTransformedGrid` (drawing-utils.js): transform the world
point to screen space, round to the nearest multiple of
`gridSize * zoomLevel`, and transform back. -/
def snapToTransformedGrid (point : Point) (gridSize : ℚ) (panOffset : Point)
    (zoomLevel : ℚ) : Point :=
  let screenGridSize := gridSize * zoomLevel
  let screenX := point.x * zoomLevel + panOffset.x
  let screenY := point.y * zoomLevel + panOffset.y
  let snappedScreenX := (jround (screenX / screenGridSize) : ℚ) * screenGridSize
  let snappedScreenY := (jround (screenY / screenGridSize) : ℚ) * screenGridSize
  { x := (snappedScreenX - panOffset.x) / zoomLevel
    y := (snappedScreenY - panOffset.y) / zoomLevel }

/-- `snapToPoints` (drawing-utils.js): the first existing point within
tolerance wins (iteration order), else `null`. -/
def snapToPoints (point : Point) (existingPoints : List Point)
    (tolerance : ℚ) : Option Point :=
  existingPoints.find? (fun existingPoint => distLeTol point existingPoint tolerance)

/-- A line segment `{start, end}` (the `end` field is called `endP`
because `end` is a Lean keyword). -/
structure Seg where
  start : Point
  endP : Point
deriving DecidableEq, Repr

/-- `snapToLine` (drawing-utils.js): orthogonal projection of `point`
onto the segment, clamped to `t ∈ [0,1]`; `null` when the segment has
zero length (`lenSq === 0`) or the projection is out of tolerance. -/
def snapToLine (point lineStart lineEnd : Point) (tolerance : ℚ) : Option Point :=
  let A := point.x - lineStart.x
  let B := point.y - lineStart.y
  let C := lineEnd.x - lineStart.x
  let D := lineEnd.y - lineStart.y
  let dot := A * C + B * D
  let lenSq := C * C + D * D
  if lenSq = 0 then none
  else
    let param := dot / lenSq
    let param' := max 0 (min 1 param)
    let snappedX := lineStart.x + param' * C
    let snappedY := lineStart.y + param' * D
    if distLeTol point ⟨snappedX, snappedY⟩ tolerance then
      some ⟨snappedX, snappedY⟩
    else
      none

/-- `snapToLines` (drawing-utils.js): first segment that yields a snap
wins. -/
def snapToLines (point : Point) (lines : List Seg) (tolerance : ℚ) : Option Point :=
  lines.findSome? (fun line => snapToLine point line.start line.endP tolerance)

/-- The tagged vector objects pushed into `cadStore.vectorObjects`
(`type: 'line' | 'rectangle' | 'circle' | 'polyline' | 'dimension'`).
The `end` field of a line is called `endP` (`end` is a Lean keyword). -/
inductive VectorObject where
  | line (start endP : Point) (color : String) (lineWidth : ℚ)
  | rectangle (x y width height : ℚ) (color : String) (lineWidth : ℚ) (filled : Bool)
  | circle (x y radius : ℚ) (color : String) (lineWidth : ℚ) (filled : Bool)
  | polyline (points : List Point) (color : String) (lineWidth : ℚ)
  | dimension (point1 point2 dimensionLinePos : Point) (color : String) (lineWidth : ℚ)
deriving DecidableEq, Repr

/-- The `{endpoints, midpoints, centers, corners}` record built by
`getAllSnapPoints` (drawing-utils.js). -/
structure SnapPoints where
  endpoints : List Point
  midpoints : List Point
  centers : List Point
  corners : List Point
deriving DecidableEq, Repr

/-- `calculateMidpoint` (drawing-utils.js). -/
def calculateMidpoint (start endP : Point) : Point :=
  { x := (start.x + endP.x) / 2, y := (start.y + endP.y) / 2 }

/-- One `forEach` step of `getAllSnapPoints`: lines contribute their
endpoints and midpoint, rectangles their four corners and center,
circles their center; polylines and dimensions contribute nothing. -/
def snapPointsStep (acc : SnapPoints) : VectorObject → SnapPoints
  | VectorObject.line start endP _ _ =>
      { acc with
        endpoints := acc.endpoints ++ [start, endP]
        midpoints := acc.midpoints ++ [calculateMidpoint start endP] }
  | VectorObject.rectangle x y width height _ _ _ =>
      { acc with
        corners := acc.corners ++
          [⟨x, y⟩, ⟨x + width, y⟩, ⟨x + width, y + height⟩, ⟨x, y + height⟩]
        centers := acc.centers ++ [⟨x + width / 2, y + height / 2⟩] }
  | VectorObject.circle x y _ _ _ _ =>
      { acc with centers := acc.centers ++ [⟨x, y⟩] }
  | _ => acc

/-- `getAllSnapPoints` (drawing-utils.js). -/
def getAllSnapPoints (vectorObjects : List VectorObject) : SnapPoints :=
  vectorObjects.foldl snapPointsStep ⟨[], [], [], []⟩

/-- The slice of `cadStore` state read by the snap engine.  All fields
are from src/src/stores/cad-store.js except `panOffset`,
`dimensionSecondPoint` and `dimensionLinePosition`, which the canvas
component references but which are absent from the store source in this
snapshot; they are modelled from the spec (Transform state `panOffset`;
Construction state `dimensionSecondPoint`/`dimensionLinePosition`). -/
structure SnapStore where
  vectorObjects : List VectorObject
  polylinePoints : List Point
  dimensionStart : Option Point
  dimensionSecondPoint : Option Point
  snapToGrid : Bool
  snapToPoints : Bool
  snapToLines : Bool
  gridSize : ℚ
  panOffset : Point
  zoomLevel : ℚ
  snapTolerance : ℚ
deriving DecidableEq, Repr

/-- The computed property `existingLines` (cad-store.js): segments of
the in-progress polyline, plus each line object, plus the four edges of
each rectangle. -/
def existingLinesStep (acc : List Seg) : VectorObject → List Seg
  | VectorObject.line start endP _ _ => acc ++ [⟨start, endP⟩]
  | VectorObject.rectangle x y width height _ _ _ =>
      acc ++
        [⟨⟨x, y⟩, ⟨x + width, y⟩⟩,
         ⟨⟨x + width, y⟩, ⟨x + width, y + height⟩⟩,
         ⟨⟨x + width, y + height⟩, ⟨x, y + height⟩⟩,
         ⟨⟨x, y + height⟩, ⟨x, y⟩⟩]
  | _ => acc

/-- Consecutive segments of the in-progress polyline
(`for (let i = 1; i < polylinePoints.length; i++)` in `existingLines`). -/
def polylineSegs : List Point → List Seg
  | p1 :: p2 :: rest => ⟨p1, p2⟩ :: polylineSegs (p2 :: rest)
  | _ => []

/-- `existingLines` (cad-store.js). -/
def existingLines (st : SnapStore) : List Seg :=
  st.vectorObjects.foldl existingLinesStep (polylineSegs st.polylinePoints)

/-- The candidate sets used by `getSnappedPosition` (CADCanvas
component): `getAllSnapPoints` of the scene, with the in-progress
polyline points and the dimension first/second points pushed onto
`endpoints`. -/
def effectiveSnapPoints (st : SnapStore) : SnapPoints :=
  let allSnapPoints := getAllSnapPoints st.vectorObjects
  let allSnapPoints :=
    if st.polylinePoints.length > 0 then
      { allSnapPoints with endpoints := allSnapPoints.endpoints ++ st.polylinePoints }
    else allSnapPoints
  let allSnapPoints :=
    match st.dimensionStart with
    | some p => { allSnapPoints with endpoints := allSnapPoints.endpoints ++ [p] }
    | none => allSnapPoints
  match st.dimensionSecondPoint with
  | some p => { allSnapPoints with endpoints := allSnapPoints.endpoints ++ [p] }
  | none => allSnapPoints

/-- The `snapType` values assigned by `getSnappedPosition`. -/
inductive SnapType where
  | grid
  | endpoint
  | midpoint
  | center
  | corner
  | line
deriving DecidableEq, Repr

/-- `getSnappedPosition` (CADCanvas component).  Faithful to the source
control flow: the grid branch assigns `snapType = 'grid'` only when the
grid point differs from the cursor; the endpoint check inside
`if (cadStore.snapToPoints)` is NOT gated on `snapType` and overwrites
any previous result, while the midpoint/center/corner checks run only
`if (!snapType)`; the line check runs only when `snapToLines` is
enabled and `snapType` is still unset. -/
def getSnappedPosition (st : SnapStore) (pos : Point) : Point × Option SnapType :=
  let allSnapPoints := effectiveSnapPoints st
  let res0 : Point × Option SnapType :=
    if st.snapToGrid then
      let gridSnapped := snapToTransformedGrid pos st.gridSize st.panOffset st.zoomLevel
      if gridSnapped.x ≠ pos.x ∨ gridSnapped.y ≠ pos.y then
        (gridSnapped, some SnapType.grid)
      else (pos, none)
    else (pos, none)
  let res1 :=
    if st.snapToPoints then
      match snapToPoints pos allSnapPoints.endpoints st.snapTolerance with
      | some endpointSnap => (endpointSnap, some SnapType.endpoint)
      | none => res0
    else res0
  let res2 :=
    if st.snapToPoints ∧ res1.2 = none then
      match snapToPoints pos allSnapPoints.midpoints st.snapTolerance with
      | some midpointSnap => (midpointSnap, some SnapType.midpoint)
      | none => res1
    else res1
  let res3 :=
    if st.snapToPoints ∧ res2.2 = none then
      match snapToPoints pos allSnapPoints.centers st.snapTolerance with
      | some centerSnap => (centerSnap, some SnapType.center)
      | none => res2
    else res2
  let res4 :=
    if st.snapToPoints ∧ res3.2 = none then
      match snapToPoints pos allSnapPoints.corners st.snapTolerance with
      | some cornerSnap => (cornerSnap, some SnapType.corner)
      | none => res3
    else res3
  if st.snapToLines ∧ res4.2 = none then
    match snapToLines pos (existingLines st) st.snapTolerance with
    | some lineSnap => (lineSnap, some SnapType.line)
    | none => res4
  else res4

/-- `zoomMin` (cad-store.js). -/
def zoomMin : ℚ := 1/10

/-- `zoomMax` (cad-store.js). -/
def zoomMax : ℚ := 10

/-- `setZoom` (cad-store.js): clamp the requested level to
`[zoomMin, zoomMax]`. -/
def setZoom (level : ℚ) : ℚ := max zoomMin (min level zoomMax)

/-- The screen→world transform performed by `getMousePos` in the CADCanvas
component, applied to the raw canvas-relative position:
`world = (raw - panOffset) / zoomLevel` per axis. -/
def getMousePos (raw panOffset : Point) (zoomLevel : ℚ) : Point :=
  { x := (raw.x - panOffset.x) / zoomLevel
    y := (raw.y - panOffset.y) / zoomLevel }

/-- The world→screen transform performed by `drawLineWithConstantWidth`
(and every other constant-width draw function in drawing-utils.js):
`screen = world * zoomLevel + panOffset` per axis. -/
def worldToScreen (p panOffset : Point) (zoomLevel : ℚ) : Point :=
  { x := p.x * zoomLevel + panOffset.x
    y := p.y * zoomLevel + panOffset.y }

/-- `onWheel` (CADCanvas component), as a pure transform of the camera:
given the screen mouse position, the current pan/zoom and the wheel
`deltaY`, it computes the world point under the cursor with the OLD
transform, picks the new zoom (×1.2 in, ÷1.2 out, clamped), stores it
via `setZoom`, and reassigns `pan = mouse - world * newZoom`.  Returns
the store's new `(zoomLevel, panOffset)`. -/
def onWheel (mouse panOffset : Point) (zoomLevel deltaY : ℚ) : ℚ × Point :=
  let worldX := (mouse.x - panOffset.x) / zoomLevel
  let worldY := (mouse.y - panOffset.y) / zoomLevel
  let newZoom :=
    if deltaY < 0 then min (zoomLevel * (12/10)) zoomMax
    else max (zoomLevel / (12/10)) zoomMin
  let storedZoom := setZoom newZoom
  let newPanX := mouse.x - worldX * newZoom
  let newPanY := mouse.y - worldY * newZoom
  (storedZoom, ⟨newPanX, newPanY⟩)

/-- JavaScript array indexing `a[i]` on an integer index: `undefined`
(here `none`) when out of range or negative. -/
def jsGet {α : Type} (l : List α) (i : ℤ) : Option α :=
  if i < 0 then none else l.get? i.toNat

/-- JavaScript `a.slice(0, e)`: a negative end counts from the end of
the array. -/
def jsSliceTo {α : Type} (l : List α) (e : ℤ) : List α :=
  if e < 0 then l.take ((l.length : ℤ) + e).toNat else l.take e.toNat

/-- `MAX_HISTORY_SIZE` (cad-store.js). -/
def MAX_HISTORY_SIZE : ℕ := 50

/-- The undo/redo history of cad-store.js: `history` (a bounded list of
opaque snapshots) and `historyIndex` (initially `-1`). -/
structure HistoryState (α : Type) where
  history : List α
  historyIndex : ℤ
deriving DecidableEq, Repr

/-- `saveState` (cad-store.js): when at capacity, `shift()` the oldest
entry and move the index down by one (not below 0); then truncate the
redo branch with `slice(0, historyIndex + 1)`, push the snapshot, and
advance the index. -/
def saveState {α : Type} (s : HistoryState α) (imageData : α) : HistoryState α :=
  let s1 :=
    if s.history.length ≥ MAX_HISTORY_SIZE then
      { history := s.history.drop 1
        historyIndex := max 0 (s.historyIndex - 1) }
    else s
  { history := jsSliceTo s1.history (s1.historyIndex + 1) ++ [imageData]
    historyIndex := s1.historyIndex + 1 }

/-- `canUndo` (cad-store.js). -/
def canUndo {α : Type} (s : HistoryState α) : Prop := s.historyIndex > 0

instance {α : Type} (s : HistoryState α) : Decidable (canUndo s) := by
  unfold canUndo; infer_instance

/-- `canRedo` (cad-store.js). -/
def canRedo {α : Type} (s : HistoryState α) : Prop :=
  s.historyIndex < (s.history.length : ℤ) - 1

instance {α : Type} (s : HistoryState α) : Decidable (canRedo s) := by
  unfold canRedo; infer_instance

/-- `undo` (cad-store.js): if `canUndo`, decrement the index and return
the entry at the new index, else return `null` and change nothing. -/
def undo {α : Type} (s : HistoryState α) : Option α × HistoryState α :=
  if canUndo s then
    let i := s.historyIndex - 1
    (jsGet s.history i, { s with historyIndex := i })
  else (none, s)

/-- `redo` (cad-store.js): if `canRedo`, increment the index and return
the entry at the new index, else return `null` and change nothing. -/
def redo {α : Type} (s : HistoryState α) : Option α × HistoryState α :=
  if canRedo s then
    let i := s.historyIndex + 1
    (jsGet s.history i, { s with historyIndex := i })
  else (none, s)

/-- `k` successive `undo` calls; the first component is the value the
`k`-th call returned (`none` for `k = 0`, where no call was made). -/
def undoN {α : Type} (s : HistoryState α) : ℕ → Option α × HistoryState α
  | 0 => (none, s)
  | n + 1 => undo (undoN s n).2

/-- The empty history of a fresh store (`history = []`,
`historyIndex = -1`). -/
def emptyHistory (α : Type) : HistoryState α := ⟨[], -1⟩

/-- State after pushing the snapshots `1, 2, …, n` in order onto the
empty history. -/
def histAfter (n : ℕ) : HistoryState ℕ :=
  (List.range n).foldl (fun s i => saveState s (i + 1)) (emptyHistory ℕ)

/-- The drawing tools of `cadStore.currentTool`. -/
inductive Tool where
  | select
  | polyline
  | line
  | rectangle
  | circle
  | dimension
deriving DecidableEq, Repr

/-- The command-line prompt kinds used by `showCommand` in the CADCanvas
component. -/
inductive PromptKind where
  | width
  | height
  | radius
deriving DecidableEq, Repr

/-- The state touched by the CADCanvas click/escape handlers: the
component's `drawingState.startPoint` and command-line prompt, and the
store's tool, polyline, dimension, scene and history state.  History
snapshots are raster buffers, opaque here (`Unit`).
`dimensionSecondPoint`/`dimensionLinePosition` are referenced by the
component but absent from this snapshot's store source; they are
modelled from the spec (Construction state). -/
structure CanvasState where
  currentTool : Tool
  startPoint : Option Point
  isDrawing : Bool
  polylinePoints : List Point
  dimensionStart : Option Point
  dimensionSecondPoint : Option Point
  dimensionLinePosition : Option Point
  vectorObjects : List VectorObject
  showInputDialog : Bool
  currentCommand : Option PromptKind
  history : HistoryState Unit
  lineColor : String
  lineWidth : ℚ
deriving DecidableEq, Repr

/-- Modelled from the spec: `clearAllDimensionData` is called by the
component but missing from this snapshot's store source; per the spec's
dimension state machine it "clears all three transient fields"
(`dimensionStart`, `dimensionSecondPoint`, `dimensionLinePosition`). -/
def clearAllDimensionData (s : CanvasState) : CanvasState :=
  { s with dimensionStart := none, dimensionSecondPoint := none,
           dimensionLinePosition := none }

/-- `cancelInput` (cad-store.js): closes the input dialog (the callback
and text fields it also resets are not modelled). -/
def cancelInput (s : CanvasState) : CanvasState :=
  { s with showInputDialog := false }

/-- `clearCommand` (CADCanvas component): resets the command-line
prompt. -/
def clearCommand (s : CanvasState) : CanvasState :=
  { s with currentCommand := none }

/-- `handleEscape` (CADCanvas component): clears
`drawingState.startPoint` if set, clears the dimension fields if any is
set, and cancels the input dialog if shown.  It does not touch the
in-progress polyline points, the scene, or the history. -/
def handleEscape (s : CanvasState) : CanvasState :=
  let s :=
    if s.startPoint.isSome then { s with startPoint := none } else s
  let s :=
    if s.dimensionStart.isSome ∨ s.dimensionSecondPoint.isSome ∨
        s.dimensionLinePosition.isSome then
      clearAllDimensionData s
    else s
  if s.showInputDialog then cancelInput s else s

/-- The `event.button === 2` (right-click) branch of `onClick`
(CADCanvas component): with the polyline tool while drawing, stop
drawing and, when more than one point has accumulated, COMMIT the
polyline to the scene, clear the points and push a history snapshot;
then clear `drawingState.startPoint` and the dimension fields if set,
and clear the command line. -/
def onRightClick (s : CanvasState) : CanvasState :=
  let s :=
    if s.currentTool = Tool.polyline ∧ s.isDrawing then
      let s := { s with isDrawing := false }
      if s.polylinePoints.length > 1 then
        let s := { s with
          vectorObjects := s.vectorObjects ++
            [VectorObject.polyline s.polylinePoints s.lineColor s.lineWidth] }
        let s := { s with polylinePoints := [] }
        { s with history := saveState s.history () }
      else s
    else s
  let s :=
    if s.startPoint.isSome then { s with startPoint := none } else s
  let s :=
    if s.dimensionStart.isSome ∨ s.dimensionSecondPoint.isSome ∨
        s.dimensionLinePosition.isSome then
      clearAllDimensionData s
    else s
  clearCommand s

/-- The width-prompt continuation of the rectangle tool (`onClick`,
CADCanvas component): a non-positive width is rejected with an alert
and an early `return` (no state change); otherwise the height prompt is
shown. -/
def rectWidthCallback (s : CanvasState) (userWidth : ℚ) : CanvasState :=
  if userWidth ≤ 0 then s
  else { s with currentCommand := some PromptKind.height }

/-- The height-prompt continuation of the rectangle tool (capturing the
already-validated `userWidth`): a non-positive height is rejected with
an alert and an early `return`; otherwise the rectangle is committed at
`drawingState.startPoint`, the start point is cleared and a history
snapshot is pushed.  (With a `null` start point the source would fault
reading `.x`; that point is unreachable in the click flow and modelled
as a no-op.) -/
def rectHeightCallback (s : CanvasState) (userWidth userHeight : ℚ) : CanvasState :=
  if userHeight ≤ 0 then s
  else
    match s.startPoint with
    | some sp =>
        let s := { s with
          vectorObjects := s.vectorObjects ++
            [VectorObject.rectangle sp.x sp.y userWidth userHeight
              s.lineColor s.lineWidth false] }
        let s := { s with startPoint := none }
        { s with history := saveState s.history () }
    | none => s

/-- The radius-prompt continuation of the circle tool (`onClick`,
CADCanvas component): a non-positive radius is rejected with an alert
and an early `return`; otherwise the circle is committed, the start
point cleared and a snapshot pushed. -/
def circleRadiusCallback (s : CanvasState) (userRadius : ℚ) : CanvasState :=
  if userRadius ≤ 0 then s
  else
    match s.startPoint with
    | some sp =>
        let s := { s with
          vectorObjects := s.vectorObjects ++
            [VectorObject.circle sp.x sp.y userRadius
              s.lineColor s.lineWidth false] }
        let s := { s with startPoint := none }
        { s with history := saveState s.history () }
    | none => s

/-- The inches→pixels conversion at the prompt boundary
(`submitCommand`, CADCanvas component): 96 units per inch. -/
def inchesToPixels (inches : ℚ) : ℚ := inches * 96

/-- The numeric path of `submitCommand` (CADCanvas component): when a
prompt is active, the parsed value is converted inches→pixels, handed
to the stored continuation, and then the command line is cleared.
The continuation is passed explicitly (`commandCallback` is a closure
in the source). -/
def submitNumericCommand (s : CanvasState) (value : ℚ)
    (callback : CanvasState → ℚ → CanvasState) : CanvasState :=
  if s.currentCommand.isSome then
    clearCommand (callback s (inchesToPixels value))
  else s

/-- A canvas state with an active two-point polyline being drawn and an
otherwise clean store. -/
def cancelDemoState : CanvasState :=
  { currentTool := Tool.polyline
    startPoint := none
    isDrawing := true
    polylinePoints := [⟨0, 0⟩, ⟨40, 0⟩]
    dimensionStart := none
    dimensionSecondPoint := none
    dimensionLinePosition := none
    vectorObjects := []
    showInputDialog := false
    currentCommand := none
    history := emptyHistory Unit
    lineColor := "#000000"
    lineWidth := 2 }

/-- A canvas state mid rectangle construction: the first click has been
recorded and the width prompt is showing. -/
def promptDemoState : CanvasState :=
  { currentTool := Tool.rectangle
    startPoint := some ⟨5, 5⟩
    isDrawing := false
    polylinePoints := []
    dimensionStart := none
    dimensionSecondPoint := none
    dimensionLinePosition := none
    vectorObjects := []
    showInputDialog := false
    currentCommand := some PromptKind.width
    history := emptyHistory Unit
    lineColor := "#000000"
    lineWidth := 2 }

/-- The concrete store of the snap-priority scenario: one line from
(3,0) to (200,0), default grid size 20, tolerance 10, zoom 1, no pan,
all snap categories enabled. -/
def priorityDemoStore : SnapStore :=
  { vectorObjects := [VectorObject.line ⟨3, 0⟩ ⟨200, 0⟩ "#000000" 2]
    polylinePoints := []
    dimensionStart := none
    dimensionSecondPoint := none
    snapToGrid := true
    snapToPoints := true
    snapToLines := true
    gridSize := 20
    panOffset := ⟨0, 0⟩
    zoomLevel := 1
    snapTolerance := 10 }

/-- The concrete store of the grid-idempotence scenario: one line from
(−9,0) to (200,0), same defaults as `priorityDemoStore`. -/
def gridIdemDemoStore : SnapStore :=
  { priorityDemoStore with
    vectorObjects := [VectorObject.line ⟨-9, 0⟩ ⟨200, 0⟩ "#000000" 2] }

/-- The grid-idempotence scenario with an empty scene (no snap
candidates anywhere). -/
def gridIdemWitnessStore : SnapStore :=
  { priorityDemoStore with vectorObjects := [] }

/-! ## Theorems -/

/-- C8: for every point and every zero-length segment (start = end),
`snapToLine` returns `none`: the `lenSq === 0` guard fires before the
division, so line-snap projection never divides by a zero squared
length. -/
theorem snapToLine_zero_length (point a : Point) (tolerance : ℚ) :
    snapToLine point a a tolerance = none := by
  simp [snapToLine]

/-- C6: the world→screen map of the constant-width draw functions
(`screen = world * zoom + pan`) followed by the screen→world map of
`getMousePos` (`world = (screen - pan) / zoom`) is the identity on
points, exactly, for every pan offset and every zoom level in
`[zoomMin, zoomMax]`. -/
theorem screen_world_roundtrip (p panOffset : Point) (zoomLevel : ℚ)
    (h1 : zoomMin ≤ zoomLevel) (h2 : zoomLevel ≤ zoomMax) :
    getMousePos (worldToScreen p panOffset zoomLevel) panOffset zoomLevel = p := by
  have hz : zoomLevel ≠ 0 := by
    have : (0 : ℚ) < zoomLevel := lt_of_lt_of_le (by norm_num [zoomMin]) h1
    exact ne_of_gt this
  cases p with
  | mk x y =>
    simp only [getMousePos, worldToScreen, Point.mk.injEq]
    constructor <;> field_simp

/-- Witness for C6 at a concrete input. -/
theorem screen_world_roundtrip_witness :
    getMousePos (worldToScreen ⟨3, 4⟩ ⟨5, -7⟩ 2) ⟨5, -7⟩ 2 = ⟨3, 4⟩ :=
  screen_world_roundtrip ⟨3, 4⟩ ⟨5, -7⟩ 2 (by norm_num [zoomMin]) (by norm_num [zoomMax])

/-- C5: a wheel-zoom anchored at a fixed screen cursor keeps the same
world point under the cursor: mapping the mouse position to world
coordinates with the old pan/zoom equals mapping it with the zoom and
pan assigned by `onWheel`, for every wheel direction and every starting
zoom in `[zoomMin, zoomMax]` (including when the new zoom is clamped at
either bound). -/
theorem onWheel_zoom_to_cursor (mouse panOffset : Point) (zoomLevel deltaY : ℚ)
    (h1 : zoomMin ≤ zoomLevel) (h2 : zoomLevel ≤ zoomMax) :
    getMousePos mouse (onWheel mouse panOffset zoomLevel deltaY).2
        (onWheel mouse panOffset zoomLevel deltaY).1
      = getMousePos mouse panOffset zoomLevel := by
  have hmin : (0 : ℚ) < zoomMin := by norm_num [zoomMin]
  have hz : (0 : ℚ) < zoomLevel := lt_of_lt_of_le hmin h1
  set nz := if deltaY < 0 then min (zoomLevel * (12/10)) zoomMax
            else max (zoomLevel / (12/10)) zoomMin with hnz
  have hb : zoomMin ≤ nz ∧ nz ≤ zoomMax := by
    rw [hnz]
    constructor
    · split_ifs
      · refine le_min ?_ ?_
        · nlinarith [h1]
        · norm_num [zoomMin, zoomMax]
      · exact le_max_right _ _
    · split_ifs
      · exact min_le_right _ _
      · refine max_le ?_ ?_
        · rw [div_le_iff (by norm_num : (0:ℚ) < 12/10)]
          nlinarith [h2]
        · norm_num [zoomMin, zoomMax]
  have hnzpos : (0 : ℚ) < nz := lt_of_lt_of_le hmin hb.1
  have hstored : setZoom nz = nz := by
    unfold setZoom
    rw [min_eq_left hb.2, max_eq_right hb.1]
  show getMousePos mouse
      ⟨mouse.x - (mouse.x - panOffset.x) / zoomLevel * nz,
       mouse.y - (mouse.y - panOffset.y) / zoomLevel * nz⟩ (setZoom nz)
    = getMousePos mouse panOffset zoomLevel
  rw [hstored]
  simp only [getMousePos, Point.mk.injEq]
  constructor <;> · field_simp; ring

/-- Witness for C5 at a concrete input (zoom-in from zoom 1). -/
theorem onWheel_zoom_to_cursor_witness :
    getMousePos ⟨100, 50⟩ (onWheel ⟨100, 50⟩ ⟨20, -30⟩ 1 (-3)).2
        (onWheel ⟨100, 50⟩ ⟨20, -30⟩ 1 (-3)).1
      = getMousePos ⟨100, 50⟩ ⟨20, -30⟩ 1 :=
  onWheel_zoom_to_cursor ⟨100, 50⟩ ⟨20, -30⟩ 1 (-3)
    (by norm_num [zoomMin]) (by norm_num [zoomMax])

/-- `jsGet` hits an element whenever the index is in range. -/
theorem jsGet_isSome {α : Type} (l : List α) (i : ℤ)
    (h0 : 0 ≤ i) (h : i < (l.length : ℤ)) : (jsGet l i).isSome := by
  unfold jsGet
  rw [if_neg (not_lt.mpr h0)]
  have hlt : i.toNat < l.length := by omega
  rw [List.get?_eq_get hlt]
  rfl

/-- Unfolding `undo` when `canUndo` holds. -/
theorem undo_eq_of_canUndo {α : Type} (s : HistoryState α)
    (h : (0 : ℤ) < s.historyIndex) :
    undo s = (jsGet s.history (s.historyIndex - 1),
              ⟨s.history, s.historyIndex - 1⟩) := by
  unfold undo
  rw [if_pos (show canUndo s from h)]

/-- Unfolding `undo` when `canUndo` fails. -/
theorem undo_eq_of_not_canUndo {α : Type} (s : HistoryState α)
    (h : ¬ (0 : ℤ) < s.historyIndex) :
    undo s = (none, s) := by
  unfold undo
  rw [if_neg (show ¬ canUndo s from h)]

/-- Unfolding `redo` when `canRedo` holds. -/
theorem redo_eq_of_canRedo {α : Type} (s : HistoryState α)
    (h : s.historyIndex < (s.history.length : ℤ) - 1) :
    redo s = (jsGet s.history (s.historyIndex + 1),
              ⟨s.history, s.historyIndex + 1⟩) := by
  unfold redo
  rw [if_pos (show canRedo s from h)]

/-- Unfolding `redo` when `canRedo` fails. -/
theorem redo_eq_of_not_canRedo {α : Type} (s : HistoryState α)
    (h : ¬ s.historyIndex < (s.history.length : ℤ) - 1) :
    redo s = (none, s) := by
  unfold redo
  rw [if_neg (show ¬ canRedo s from h)]

/-- C9: `undo` returns `null` and leaves the history list and index
unchanged exactly when the index is at the start (`historyIndex ≤ 0`);
otherwise it decrements the index and returns the (existing) entry at
the new index.  Symmetrically, `redo` is a silent no-op exactly when
the index is at the last entry, and otherwise increments the index and
returns the entry there.  Stated for every state satisfying the history
invariant `-1 ≤ historyIndex < length`. -/
theorem undo_redo_boundary {α : Type} (s : HistoryState α)
    (hlo : -1 ≤ s.historyIndex) (hhi : s.historyIndex < (s.history.length : ℤ)) :
    (((undo s).1 = none ∧ (undo s).2 = s) ↔ s.historyIndex ≤ 0)
    ∧ (0 < s.historyIndex →
        (undo s).2.history = s.history
        ∧ (undo s).2.historyIndex = s.historyIndex - 1
        ∧ (undo s).1 = jsGet s.history (s.historyIndex - 1)
        ∧ (undo s).1.isSome)
    ∧ (((redo s).1 = none ∧ (redo s).2 = s) ↔ (s.history.length : ℤ) - 1 ≤ s.historyIndex)
    ∧ (s.historyIndex < (s.history.length : ℤ) - 1 →
        (redo s).2.history = s.history
        ∧ (redo s).2.historyIndex = s.historyIndex + 1
        ∧ (redo s).1 = jsGet s.history (s.historyIndex + 1)
        ∧ (redo s).1.isSome) := by
  refine ⟨?_, ?_, ?_, ?_⟩
  · by_cases hc : (0 : ℤ) < s.historyIndex
    · have hsome : (jsGet s.history (s.historyIndex - 1)).isSome :=
        jsGet_isSome _ _ (by omega) (by omega)
      rw [undo_eq_of_canUndo s hc]
      constructor
      · rintro ⟨h1, -⟩
        have h1' : jsGet s.history (s.historyIndex - 1) = none := h1
        rw [h1'] at hsome
        exact absurd hsome (by simp)
      · intro h
        exact absurd hc (not_lt.mpr h)
    · rw [undo_eq_of_not_canUndo s hc]
      exact ⟨fun _ => by omega, fun _ => ⟨rfl, rfl⟩⟩
  · intro hpos
    have hsome : (jsGet s.history (s.historyIndex - 1)).isSome :=
      jsGet_isSome _ _ (by omega) (by omega)
    rw [undo_eq_of_canUndo s hpos]
    exact ⟨rfl, rfl, rfl, hsome⟩
  · by_cases hc : s.historyIndex < (s.history.length : ℤ) - 1
    · have hsome : (jsGet s.history (s.historyIndex + 1)).isSome :=
        jsGet_isSome _ _ (by omega) (by omega)
      rw [redo_eq_of_canRedo s hc]
      constructor
      · rintro ⟨h1, -⟩
        have h1' : jsGet s.history (s.historyIndex + 1) = none := h1
        rw [h1'] at hsome
        exact absurd hsome (by simp)
      · intro h
        exact absurd hc (not_lt.mpr (by omega))
    · rw [redo_eq_of_not_canRedo s hc]
      exact ⟨fun _ => by omega, fun _ => ⟨rfl, rfl⟩⟩
  · intro hlt
    have hsome : (jsGet s.history (s.historyIndex + 1)).isSome :=
      jsGet_isSome _ _ (by omega) (by omega)
    rw [redo_eq_of_canRedo s hlt]
    exact ⟨rfl, rfl, rfl, hsome⟩

/-- Witness for C9: boundary no-op at a fresh one-entry history
(index 0: undo returns `none` and changes nothing). -/
theorem undo_redo_boundary_witness :
    ((undo (⟨[7], 0⟩ : HistoryState ℕ)).1 = none
      ∧ (undo (⟨[7], 0⟩ : HistoryState ℕ)).2 = ⟨[7], 0⟩) :=
  (undo_redo_boundary (⟨[7], 0⟩ : HistoryState ℕ) (by norm_num) (by norm_num)).1.mpr
    (by norm_num)

/-- Counterexample to C2: with an active polyline of two points, a
right-click COMMITS a polyline object to the scene (`vectorObjects`
changes), and an Escape press leaves the active polyline points in
place — so neither cancellation path clears all transient construction
state without committing. -/
theorem cancel_polyline_counterexample :
    cancelDemoState.polylinePoints ≠ []
    ∧ (onRightClick cancelDemoState).vectorObjects ≠ cancelDemoState.vectorObjects
    ∧ (handleEscape cancelDemoState).polylinePoints = cancelDemoState.polylinePoints := by
  decide

/-- C2 (amended): Escape clears the drag start and the dimension
fields, leaving the scene, history and active polyline points
untouched; right-click clears the drag start, the dimension fields and
the command prompt, leaves the scene and history unchanged UNLESS the
polyline tool is active and drawing with more than one accumulated
point, in which case it commits exactly one polyline object built from
those points and clears them. -/
theorem cancel_clears_transient (s : CanvasState) :
    ((handleEscape s).vectorObjects = s.vectorObjects
      ∧ (handleEscape s).history = s.history
      ∧ (handleEscape s).startPoint = none
      ∧ (handleEscape s).dimensionStart = none
      ∧ (handleEscape s).dimensionSecondPoint = none
      ∧ (handleEscape s).dimensionLinePosition = none
      ∧ (handleEscape s).polylinePoints = s.polylinePoints)
    ∧ ((onRightClick s).startPoint = none
      ∧ (onRightClick s).dimensionStart = none
      ∧ (onRightClick s).dimensionSecondPoint = none
      ∧ (onRightClick s).dimensionLinePosition = none
      ∧ (onRightClick s).currentCommand = none)
    ∧ (¬ (s.currentTool = Tool.polyline ∧ s.isDrawing = true
            ∧ 1 < s.polylinePoints.length) →
        (onRightClick s).vectorObjects = s.vectorObjects
        ∧ (onRightClick s).history = s.history)
    ∧ ((s.currentTool = Tool.polyline ∧ s.isDrawing = true
            ∧ 1 < s.polylinePoints.length) →
        (onRightClick s).vectorObjects = s.vectorObjects ++
          [VectorObject.polyline s.polylinePoints s.lineColor s.lineWidth]
        ∧ (onRightClick s).polylinePoints = []) := by
  obtain ⟨tool, sp, isD, pp, d1, d2, d3, vo, sid, cc, hist, col, lw⟩ := s
  refine ⟨?_, ?_, ?_, ?_⟩
  · simp only [handleEscape, clearAllDimensionData, cancelInput]
    split_ifs <;> simp_all
  · simp only [onRightClick, clearAllDimensionData, clearCommand]
    split_ifs <;> simp_all
  · intro hno
    simp only [onRightClick, clearAllDimensionData, clearCommand]
    split_ifs <;> simp_all
  · intro hyes
    simp only [onRightClick, clearAllDimensionData, clearCommand]
    split_ifs <;> simp_all

/-- Witness for C2 (amended), at the concrete drawing state: right-click
commits the two-point polyline and clears the active points. -/
theorem cancel_clears_transient_witness :
    (onRightClick cancelDemoState).vectorObjects = cancelDemoState.vectorObjects ++
        [VectorObject.polyline cancelDemoState.polylinePoints
          cancelDemoState.lineColor cancelDemoState.lineWidth]
    ∧ (onRightClick cancelDemoState).polylinePoints = [] :=
  (cancel_clears_transient cancelDemoState).2.2.2 ⟨rfl, rfl, by decide⟩

/-- Counterexample to C7: submitting the non-positive width −2 at the
width prompt indeed commits nothing (scene and history unchanged), but
it does NOT abort the construction: the recorded drag start is left in
place, so the rectangle construction is still pending rather than
aborted. -/
theorem prompt_reject_counterexample :
    (submitNumericCommand promptDemoState (-2) rectWidthCallback).startPoint
        = some ⟨5, 5⟩
    ∧ (submitNumericCommand promptDemoState (-2) rectWidthCallback).vectorObjects
        = promptDemoState.vectorObjects
    ∧ (submitNumericCommand promptDemoState (-2) rectWidthCallback).history
        = promptDemoState.history := by
  norm_num [promptDemoState, submitNumericCommand, rectWidthCallback, clearCommand,
    inchesToPixels]

/-- C7 (amended): every non-positive numeric value submitted at the
width, height or radius prompt is rejected: no object is added to the
scene and no history snapshot is pushed; the recorded drag start is
retained (not cleared), so the construction remains pending rather than
being aborted. -/
theorem prompt_reject_no_commit (s : CanvasState) (v w : ℚ) (hv : v ≤ 0) :
    ((submitNumericCommand s v rectWidthCallback).vectorObjects = s.vectorObjects
      ∧ (submitNumericCommand s v rectWidthCallback).history = s.history
      ∧ (submitNumericCommand s v rectWidthCallback).startPoint = s.startPoint)
    ∧ ((submitNumericCommand s v
          (fun st h => rectHeightCallback st w h)).vectorObjects = s.vectorObjects
      ∧ (submitNumericCommand s v
          (fun st h => rectHeightCallback st w h)).history = s.history
      ∧ (submitNumericCommand s v
          (fun st h => rectHeightCallback st w h)).startPoint = s.startPoint)
    ∧ ((submitNumericCommand s v circleRadiusCallback).vectorObjects = s.vectorObjects
      ∧ (submitNumericCommand s v circleRadiusCallback).history = s.history
      ∧ (submitNumericCommand s v circleRadiusCallback).startPoint = s.startPoint) := by
  have hpix : inchesToPixels v ≤ 0 := by
    unfold inchesToPixels
    nlinarith
  refine ⟨?_, ?_, ?_⟩
  · simp only [submitNumericCommand, rectWidthCallback, if_pos hpix, clearCommand]
    split_ifs <;> exact ⟨rfl, rfl, rfl⟩
  · simp only [submitNumericCommand, rectHeightCallback, if_pos hpix, clearCommand]
    split_ifs <;> exact ⟨rfl, rfl, rfl⟩
  · simp only [submitNumericCommand, circleRadiusCallback, if_pos hpix, clearCommand]
    split_ifs <;> exact ⟨rfl, rfl, rfl⟩

/-- Witness for C7 (amended) at the concrete prompt state with the
non-positive width −2. -/
theorem prompt_reject_no_commit_witness :
    (submitNumericCommand promptDemoState (-2) rectWidthCallback).vectorObjects
        = promptDemoState.vectorObjects
    ∧ (submitNumericCommand promptDemoState (-2) rectWidthCallback).history
        = promptDemoState.history
    ∧ (submitNumericCommand promptDemoState (-2) rectWidthCallback).startPoint
        = promptDemoState.startPoint :=
  (prompt_reject_no_commit promptDemoState (-2) 7 (by norm_num)).1

/-- `jsSliceTo` with a nonnegative in-range end index keeps exactly the
first `e` entries. -/
theorem jsSliceTo_length {α : Type} (l : List α) (e : ℤ)
    (h0 : 0 ≤ e) (h1 : e ≤ (l.length : ℤ)) :
    ((jsSliceTo l e).length : ℤ) = e := by
  unfold jsSliceTo
  rw [if_neg (not_lt.mpr h0), List.length_take]
  omega

/-- `jsGet` at the position of a just-appended element. -/
theorem jsGet_concat {α : Type} (l : List α) (d : α) (i : ℤ)
    (h0 : 0 ≤ i) (h : i = (l.length : ℤ)) :
    jsGet (l ++ [d]) i = some d := by
  unfold jsGet
  rw [if_neg (not_lt.mpr h0)]
  have ht : i.toNat = l.length := by omega
  rw [ht]
  exact List.get?_concat_length l d

/-- Unfolding `saveState` at capacity (oldest entry shifted out first). -/
theorem saveState_eq_of_cap {α : Type} (s : HistoryState α) (d : α)
    (h : s.history.length ≥ MAX_HISTORY_SIZE) :
    saveState s d =
      ⟨jsSliceTo (s.history.drop 1) (max 0 (s.historyIndex - 1) + 1) ++ [d],
       max 0 (s.historyIndex - 1) + 1⟩ := by
  unfold saveState
  rw [if_pos h]

/-- Unfolding `saveState` below capacity. -/
theorem saveState_eq_of_not_cap {α : Type} (s : HistoryState α) (d : α)
    (h : ¬ s.history.length ≥ MAX_HISTORY_SIZE) :
    saveState s d =
      ⟨jsSliceTo s.history (s.historyIndex + 1) ++ [d], s.historyIndex + 1⟩ := by
  unfold saveState
  rw [if_neg h]

/-- The shared core of the `saveState` postcondition: truncating to
`i + 1` entries and appending puts the new entry at the final index. -/
theorem saveState_core {α : Type} (l : List α) (i : ℤ) (d : α)
    (h0 : 0 ≤ i + 1) (h1 : i + 1 ≤ (l.length : ℤ)) :
    (i + 1 = ((jsSliceTo l (i + 1) ++ [d]).length : ℤ) - 1)
    ∧ jsGet (jsSliceTo l (i + 1) ++ [d]) (i + 1) = some d
    ∧ ¬ ((i + 1 : ℤ) < ((jsSliceTo l (i + 1) ++ [d]).length : ℤ) - 1)
    ∧ 0 ≤ i + 1
    ∧ (jsSliceTo l (i + 1) ++ [d]) ≠ [] := by
  have hlen := jsSliceTo_length l (i + 1) h0 h1
  have hlen2 : ((jsSliceTo l (i + 1) ++ [d]).length : ℤ) = i + 2 := by
    rw [List.length_append, List.length_singleton]
    push_cast
    omega
  refine ⟨by omega, ?_, by omega, h0, by simp⟩
  exact jsGet_concat _ _ _ h0 (by omega)

/-- C10: after every `saveState` call from a state satisfying the
history invariant, the index points at the last entry, which is the
snapshot just pushed; `canRedo` is false (the redo branch was
truncated), and the invariant `0 ≤ historyIndex < length` holds with a
non-empty history. -/
theorem saveState_post {α : Type} (s : HistoryState α) (d : α)
    (hlo : -1 ≤ s.historyIndex) (hhi : s.historyIndex < (s.history.length : ℤ)) :
    (saveState s d).historyIndex = (((saveState s d).history.length : ℤ)) - 1
    ∧ jsGet (saveState s d).history (saveState s d).historyIndex = some d
    ∧ ¬ canRedo (saveState s d)
    ∧ 0 ≤ (saveState s d).historyIndex
    ∧ (saveState s d).history ≠ [] := by
  have h50 : MAX_HISTORY_SIZE = 50 := rfl
  by_cases hcap : s.history.length ≥ MAX_HISTORY_SIZE
  · rw [saveState_eq_of_cap s d hcap]
    rw [h50] at hcap
    have hd : (s.history.drop 1).length = s.history.length - 1 :=
      List.length_drop 1 s.history
    have h0 : (0 : ℤ) ≤ max 0 (s.historyIndex - 1) + 1 := by omega
    have h1 : max 0 (s.historyIndex - 1) + 1 ≤ ((s.history.drop 1).length : ℤ) := by
      rw [hd]
      omega
    have core := saveState_core (s.history.drop 1) (max 0 (s.historyIndex - 1)) d h0 h1
    exact ⟨core.1, core.2.1, core.2.2.1, core.2.2.2.1, core.2.2.2.2⟩
  · rw [saveState_eq_of_not_cap s d hcap]
    have h0 : (0 : ℤ) ≤ s.historyIndex + 1 := by omega
    have h1 : s.historyIndex + 1 ≤ (s.history.length : ℤ) := by omega
    have core := saveState_core s.history s.historyIndex d h0 h1
    exact ⟨core.1, core.2.1, core.2.2.1, core.2.2.2.1, core.2.2.2.2⟩

/-- `undo` never changes the history list itself. -/
theorem undo_history_eq {α : Type} (s : HistoryState α) :
    (undo s).2.history = s.history := by
  unfold undo
  split_ifs <;> rfl

/-- A value returned by `undo` is an element of the history list. -/
theorem undo_fst_mem {α : Type} (s : HistoryState α) (v : α)
    (h : (undo s).1 = some v) : v ∈ s.history := by
  by_cases hc : (0 : ℤ) < s.historyIndex
  · rw [undo_eq_of_canUndo s hc] at h
    have h' : jsGet s.history (s.historyIndex - 1) = some v := h
    unfold jsGet at h'
    split_ifs at h'
    exact List.get?_mem h'
  · rw [undo_eq_of_not_canUndo s hc] at h
    exact absurd (show (none : Option α) = some v from h) (by simp)

/-- Iterated `undo` never changes the history list. -/
theorem undoN_history_eq {α : Type} (s : HistoryState α) (k : ℕ) :
    (undoN s k).2.history = s.history := by
  induction k with
  | zero => rfl
  | succ n ih =>
    show (undo (undoN s n).2).2.history = s.history
    rw [undo_history_eq, ih]

set_option maxRecDepth 10000 in
/-- C3: pushing 60 snapshots (values 1…60) onto the empty bounded
history leaves exactly 50 entries, namely snapshots 11…60; undoing
repeatedly from the end reaches snapshot 11 (after 49 undos, with the
50th a no-op), and no sequence of undos can ever return one of the
evicted snapshots 1…10. -/
theorem history_bounds_sixty :
    (histAfter 60).history.length = 50
    ∧ (histAfter 60).history = List.range' 11 50
    ∧ (undoN (histAfter 60) 49).1 = some 11
    ∧ (undoN (histAfter 60) 50).1 = none
    ∧ (∀ (k : ℕ) (v : ℕ), (undoN (histAfter 60) k).1 = some v → 11 ≤ v) := by
  refine ⟨by decide, by decide, by decide, by decide, ?_⟩
  intro k v hv
  cases k with
  | zero => exact absurd hv (by simp [undoN])
  | succ n =>
    have hv' : (undo (undoN (histAfter 60) n).2).1 = some v := hv
    have hmem : v ∈ (undoN (histAfter 60) n).2.history :=
      undo_fst_mem _ _ hv'
    rw [undoN_history_eq] at hmem
    have hrange : (histAfter 60).history = List.range' 11 50 := by decide
    rw [hrange] at hmem
    have := List.mem_range'_1.mp hmem
    omega

set_option maxRecDepth 10000 in
/-- Witness for C3's universally quantified part: the first undo after
the 60 pushes returns snapshot 59, which is indeed not one of the
evicted snapshots 1…10. -/
theorem history_bounds_sixty_witness :
    (undoN (histAfter 60) 1).1 = some 59 ∧ 11 ≤ 59 :=
  ⟨by decide, history_bounds_sixty.2.2.2.2 1 59 (by decide)⟩

/-- Witness for C10: pushing onto the empty history (index −1) leaves
one entry at index 0, holding the pushed snapshot, with no redo. -/
theorem saveState_post_witness :
    (saveState (emptyHistory ℕ) 42).historyIndex
        = (((saveState (emptyHistory ℕ) 42).history.length : ℤ)) - 1
    ∧ jsGet (saveState (emptyHistory ℕ) 42).history
        (saveState (emptyHistory ℕ) 42).historyIndex = some 42
    ∧ ¬ canRedo (saveState (emptyHistory ℕ) 42)
    ∧ 0 ≤ (saveState (emptyHistory ℕ) 42).historyIndex
    ∧ (saveState (emptyHistory ℕ) 42).history ≠ [] :=
  saveState_post (emptyHistory ℕ) 42 (by norm_num [emptyHistory]) (by norm_num [emptyHistory])

/-- C1 (failing-input evidence): with both grid and point snapping
enabled, cursor (6,0) is within tolerance 10 of both the grid
intersection (0,0) and the line endpoint (3,0); the code's own comment
declares grid the highest priority, yet `getSnappedPosition` returns
the ENDPOINT (3,0) with type `endpoint`, because the endpoint check is
not gated on an already-found grid match and overwrites it. -/
theorem endpoint_overrides_grid :
    priorityDemoStore.snapToGrid = true
    ∧ priorityDemoStore.snapToPoints = true
    ∧ snapToTransformedGrid ⟨6, 0⟩ priorityDemoStore.gridSize
        priorityDemoStore.panOffset priorityDemoStore.zoomLevel = ⟨0, 0⟩
    ∧ distLeTol ⟨6, 0⟩ ⟨0, 0⟩ priorityDemoStore.snapTolerance = true
    ∧ distLeTol ⟨6, 0⟩ ⟨3, 0⟩ priorityDemoStore.snapTolerance = true
    ∧ getSnappedPosition priorityDemoStore ⟨6, 0⟩ = (⟨3, 0⟩, some SnapType.endpoint) := by
  refine ⟨rfl, rfl, ?_, ?_, ?_, ?_⟩
  · norm_num [priorityDemoStore, snapToTransformedGrid, jround]
  · norm_num [priorityDemoStore, distLeTol, distSq]
  · norm_num [priorityDemoStore, distLeTol, distSq]
  · norm_num [priorityDemoStore, getSnappedPosition, effectiveSnapPoints, getAllSnapPoints,
      snapPointsStep, snapToTransformedGrid, jround, snapToPoints, distLeTol, distSq,
      calculateMidpoint, List.find?, List.foldl]
    intro h
    simp at h

/-- Counterexample to C4: at cursor (8,0) with a line endpoint at
(−9,0), grid snap is the matching category (the resolution returns the
grid intersection (0,0) with type `grid`), yet re-resolving from (0,0)
snaps to the endpoint (−9,0), which is within tolerance of the grid
point — so `resolveSnap` is not idempotent even when grid is the
matching category. -/
theorem resolveSnap_not_idempotent :
    (getSnappedPosition gridIdemDemoStore ⟨8, 0⟩).2 = some SnapType.grid
    ∧ (getSnappedPosition gridIdemDemoStore
        ((getSnappedPosition gridIdemDemoStore ⟨8, 0⟩).1)).1
        ≠ (getSnappedPosition gridIdemDemoStore ⟨8, 0⟩).1 := by
  have h1 : getSnappedPosition gridIdemDemoStore ⟨8, 0⟩
      = (⟨0, 0⟩, some SnapType.grid) := by
    norm_num [gridIdemDemoStore, priorityDemoStore, getSnappedPosition,
      effectiveSnapPoints, getAllSnapPoints, snapPointsStep, snapToTransformedGrid,
      jround, snapToPoints, distLeTol, distSq, calculateMidpoint, List.find?, List.foldl]
    intro h
    simp at h
  have h2 : getSnappedPosition gridIdemDemoStore ⟨0, 0⟩
      = (⟨-9, 0⟩, some SnapType.endpoint) := by
    norm_num [gridIdemDemoStore, priorityDemoStore, getSnappedPosition,
      effectiveSnapPoints, getAllSnapPoints, snapPointsStep, snapToTransformedGrid,
      jround, snapToPoints, distLeTol, distSq, calculateMidpoint, List.find?, List.foldl]
    intro h
    simp at h
  rw [h1]
  simp only [h2]
  simp [Point.mk.injEq]

/-- Two points with equal coordinates are equal. -/
theorem point_ext (a b : Point) (hx : a.x = b.x) (hy : a.y = b.y) : a = b := by
  obtain ⟨ax, ay⟩ := a
  obtain ⟨bx, c⟩ := b
  simp only at hx hy
  rw [hx, hy]

/-- `Math.round` of an integer is that integer. -/
theorem jround_intCast (n : ℤ) : jround (n : ℚ) = n := by
  unfold jround
  rw [add_comm, Int.floor_add_int]
  norm_num

/-- The grid-snap primitive `snapToTransformedGrid` is idempotent for
every nonzero zoom level: snapping an already grid-snapped point
returns it unchanged. -/
theorem snapToTransformedGrid_idem (p : Point) (gridSize : ℚ) (panOffset : Point)
    (zoomLevel : ℚ) (hz : zoomLevel ≠ 0) :
    snapToTransformedGrid (snapToTransformedGrid p gridSize panOffset zoomLevel)
        gridSize panOffset zoomLevel
      = snapToTransformedGrid p gridSize panOffset zoomLevel := by
  have key : ∀ a po : ℚ, (a - po) / zoomLevel * zoomLevel + po = a := by
    intro a po
    field_simp
  by_cases hgz : gridSize * zoomLevel = 0
  · simp [snapToTransformedGrid, hgz, jround]
  · simp only [snapToTransformedGrid, Point.mk.injEq]
    constructor <;>
    · rw [key, mul_div_cancel_right₀ _ hgz, jround_intCast]

/-- C4 (amended): when grid snap is the matching category — grid
snapping enabled, the grid point differs from the cursor, and no
endpoint is within tolerance of the cursor — the snap resolution
returns the grid point with type `grid`, and re-resolving from the
already-snapped position returns that same position PROVIDED no
endpoint/midpoint/center/corner/line candidate lies within tolerance of
the grid-snapped position (the counterexample shows the proviso is
necessary).  The underlying grid-snap primitive itself is
unconditionally idempotent (`snapToTransformedGrid_idem`). -/
theorem resolveSnap_grid_idem (st : SnapStore) (p : Point)
    (hz : st.zoomLevel ≠ 0)
    (hsg : st.snapToGrid = true)
    (hne : snapToTransformedGrid p st.gridSize st.panOffset st.zoomLevel ≠ p)
    (hep0 : snapToPoints p (effectiveSnapPoints st).endpoints st.snapTolerance = none)
    (hep : snapToPoints (snapToTransformedGrid p st.gridSize st.panOffset st.zoomLevel)
        (effectiveSnapPoints st).endpoints st.snapTolerance = none)
    (hmp : snapToPoints (snapToTransformedGrid p st.gridSize st.panOffset st.zoomLevel)
        (effectiveSnapPoints st).midpoints st.snapTolerance = none)
    (hce : snapToPoints (snapToTransformedGrid p st.gridSize st.panOffset st.zoomLevel)
        (effectiveSnapPoints st).centers st.snapTolerance = none)
    (hco : snapToPoints (snapToTransformedGrid p st.gridSize st.panOffset st.zoomLevel)
        (effectiveSnapPoints st).corners st.snapTolerance = none)
    (hl : snapToLines (snapToTransformedGrid p st.gridSize st.panOffset st.zoomLevel)
        (existingLines st) st.snapTolerance = none) :
    (getSnappedPosition st p).2 = some SnapType.grid
    ∧ (getSnappedPosition st ((getSnappedPosition st p).1)).1
        = (getSnappedPosition st p).1 := by
  have hcomp : snapToTransformedGrid p st.gridSize st.panOffset st.zoomLevel ≠ p →
      ((snapToTransformedGrid p st.gridSize st.panOffset st.zoomLevel).x ≠ p.x
        ∨ (snapToTransformedGrid p st.gridSize st.panOffset st.zoomLevel).y ≠ p.y) := by
    intro h
    by_contra hcon
    push_neg at hcon
    exact h (point_ext _ _ hcon.1 hcon.2)
  have hfst : getSnappedPosition st p
      = (snapToTransformedGrid p st.gridSize st.panOffset st.zoomLevel,
         some SnapType.grid) := by
    by_cases hsp : st.snapToPoints = true <;>
    by_cases hsl : st.snapToLines = true <;>
    simp [getSnappedPosition, hsg, hsp, hsl, hep0, if_pos (hcomp hne)]
  have hgg := snapToTransformedGrid_idem p st.gridSize st.panOffset st.zoomLevel hz
  have hsnd : getSnappedPosition st
      (snapToTransformedGrid p st.gridSize st.panOffset st.zoomLevel)
      = (snapToTransformedGrid p st.gridSize st.panOffset st.zoomLevel, none) := by
    by_cases hsp : st.snapToPoints = true <;>
    by_cases hsl : st.snapToLines = true <;>
    simp [getSnappedPosition, hsg, hsp, hsl, hep, hmp, hce, hco, hl, hgg]
  refine ⟨by rw [hfst], ?_⟩
  rw [hfst]
  show (getSnappedPosition st
    (snapToTransformedGrid p st.gridSize st.panOffset st.zoomLevel)).1 = _
  rw [hsnd]

/-- Witness for C4 (amended): in an empty scene, resolving cursor (8,0)
grid-snaps to (0,0), and resolving again from (0,0) stays at (0,0). -/
theorem resolveSnap_grid_idem_witness :
    (getSnappedPosition gridIdemWitnessStore ⟨8, 0⟩).2 = some SnapType.grid
    ∧ (getSnappedPosition gridIdemWitnessStore
        ((getSnappedPosition gridIdemWitnessStore ⟨8, 0⟩).1)).1
        = (getSnappedPosition gridIdemWitnessStore ⟨8, 0⟩).1 :=
  resolveSnap_grid_idem gridIdemWitnessStore ⟨8, 0⟩
    (by norm_num [gridIdemWitnessStore, priorityDemoStore])
    rfl
    (by norm_num [gridIdemWitnessStore, priorityDemoStore, snapToTransformedGrid,
      jround, Point.mk.injEq])
    rfl rfl rfl rfl rfl rfl

end BradCAD
